import Mathlib

/-!
Verification of the authentication service of the reflecta-backend repository
(src/services/auth.service.ts). The service is embedded shallowly: the Prisma
store becomes an explicit `Db` value threaded through the operations, the
asynchronous calls become ordinary function calls, thrown `Error` objects with
a `statusCode` property become `AppError` values in `Except`, and the two
persistence calls whose failures the service deliberately swallows
(`loginAttempt.count` and `loginAttempt.create`) get explicit fault flags on
the store so that the catch-block behaviour is part of the model.
-/

namespace Reflecta

/-- Severity levels of the winston-style logger (src/utils/logger). -/
inductive LogLevel where
  | info
  | warn
  | error
deriving DecidableEq

/-- One emitted log line: severity plus the message string. -/
structure LogEntry where
  level : LogLevel
  message : String
deriving DecidableEq

/-- A thrown `Error` carrying a `statusCode` property, as built by
`Object.assign(new Error(msg), { statusCode })` throughout auth.service.ts. -/
structure AppError where
  statusCode : Nat
  message : String
deriving DecidableEq

/-- A row of the `User` table (prisma/schema.prisma): id, unique email,
optional display name, password hash, creation time (ms since epoch). -/
structure User where
  id : String
  email : String
  name : Option String
  passwordHash : String
  createdAt : Nat
deriving DecidableEq

/-- A row of the `LoginAttempt` table: attempted email, optional client IP,
success flag, creation time (ms since epoch). -/
structure LoginAttempt where
  email : String
  ipAddress : Option String
  success : Bool
  createdAt : Nat
deriving DecidableEq

/-- The persistent store reached through the Prisma client, together with two
fault flags: `countFault` makes the next `loginAttempt.count` query throw and
`insertAttemptFault` makes the next `loginAttempt.create` throw, modelling the
persistence failures those two call sites catch locally. -/
structure Db where
  users : List User
  loginAttempts : List LoginAttempt
  countFault : Bool
  insertAttemptFault : Bool
deriving DecidableEq

/-- Registration input (`UserData` in auth.service.ts). -/
structure UserData where
  email : String
  name : Option String
  password : String
deriving DecidableEq

/-- Login input (`LoginData` in auth.service.ts). -/
structure LoginData where
  email : String
  password : String
deriving DecidableEq

/-- Public user fields returned inside an `AuthResponse`. -/
structure PublicUser where
  id : String
  email : String
  name : Option String
deriving DecidableEq

/-- The value returned by `registerUser` and `loginUser` on success. -/
structure AuthResponse where
  user : PublicUser
  token : String
deriving DecidableEq

/-- Model of the bcrypt hashing capability: an injective encoding of the
plaintext. The service only ever feeds `bcrypt.hash` output to
`bcrypt.compare`, so a deterministic encoding is adequate. -/
def bcryptHash (password : String) : String := "bcrypt$" ++ password

/-- Model of `bcrypt.compare`: the stored hash matches exactly the hash of the
supplied plaintext. -/
def bcryptCompare (password hash : String) : Bool := hash == bcryptHash password

/-- Model of `jwt.sign({ userId }, secret, ...)`: a token determined by the
user id and the secret. -/
def jwtSign (userId secret : String) : String := "jwt." ++ userId ++ "." ++ secret

/-- The error thrown at auth.service.ts:64 when the attempt threshold is hit. -/
def rateLimitError : AppError :=
  ⟨429, "Account temporarily locked due to too many failed attempts"⟩

/-- The error thrown at auth.service.ts:163 and auth.service.ts:171. -/
def invalidCredentialsError : AppError := ⟨401, "Invalid credentials"⟩

/-- The error thrown by `generateToken` when `JWT_SECRET` is absent. -/
def serverConfigError : AppError := ⟨500, "Server configuration error"⟩

/-- The error thrown by `registerUser` on a duplicate email. -/
def userExistsError : AppError := ⟨400, "User already exists"⟩

/-- The error thrown by `getUserProfile` when the id does not resolve. -/
def userNotFoundError : AppError := ⟨404, "User not found"⟩

/-- The fixed 15-minute lookback window, in milliseconds. -/
def throttleWindowMs : Nat := 15 * 60 * 1000

/-- The fixed failed-attempt threshold. -/
def maxFailedAttempts : Nat := 5

/-- Prisma semantics of the `ipAddress` entry in the `where` clause of the
count query: when the `ipAddress` argument is `undefined` the condition is
dropped; when it is a string the stored IP of the row must equal it. -/
def matchesOptIp (rowIp queryIp : Option String) : Bool :=
  match queryIp with
  | none => true
  | some ip => rowIp == some ip

/-- The `prisma.loginAttempt.count` query issued by `checkLoginAttempts`
(auth.service.ts:46-55): rows with the given email, the given IP when one was
passed, `createdAt >= now - 15min`, and `success = false`. -/
def attemptCountQuery (db : Db) (email : String) (ipAddress : Option String)
    (now : Nat) : Nat :=
  (db.loginAttempts.filter (fun a =>
      a.email == email &&
      matchesOptIp a.ipAddress ipAddress &&
      decide (now - throttleWindowMs ≤ a.createdAt) &&
      a.success == false)).length

/-- What the try-block of `checkLoginAttempts` does before the catch is
applied: the count query either throws (count fault), or yields a count that
is at/above the threshold (throw the 429), or the check passes. -/
inductive ThrottleOutcome where
  | pass
  | rateLimited
  | readFault
deriving DecidableEq

/-- The try-block of `AuthService.checkLoginAttempts` (auth.service.ts:44-68). -/
def checkLoginAttemptsTry (db : Db) (email : String) (ipAddress : Option String)
    (now : Nat) : ThrottleOutcome :=
  if db.countFault then .readFault
  else if maxFailedAttempts ≤ attemptCountQuery db email ipAddress now then .rateLimited
  else .pass

/-- `AuthService.checkLoginAttempts` (auth.service.ts:43-76): the try-block
above wrapped in its catch-block. The catch logs whatever was thrown —
including the 429 the try-block itself threw — and falls through, so the
method always returns normally to `loginUser`; its only observable output is
the list of emitted log lines. -/
def checkLoginAttempts (db : Db) (email : String) (ipAddress : Option String)
    (now : Nat) : List LogEntry :=
  match checkLoginAttemptsTry db email ipAddress now with
  | .pass => []
  | .rateLimited =>
      [⟨.warn, "Too many failed login attempts for " ++ email⟩,
       ⟨.error, "Error checking login attempts"⟩]
  | .readFault => [⟨.error, "Error checking login attempts"⟩]

/-- `AuthService.recordLoginAttempt` (auth.service.ts:79-96): insert one
`LoginAttempt` row; on an insert failure log the error and return normally,
leaving the store unchanged. Returns the new store and the emitted log lines. -/
def recordLoginAttempt (db : Db) (email : String) (success : Bool)
    (ipAddress : Option String) (now : Nat) : Db × List LogEntry :=
  if db.insertAttemptFault then
    (db, [⟨.error, "Error recording login attempt"⟩])
  else
    ({ db with loginAttempts := db.loginAttempts ++ [⟨email, ipAddress, success, now⟩] },
     [])

/-- `AuthService.generateToken` (auth.service.ts:235-246): read `JWT_SECRET`
from the environment; if it is absent (or empty, which is falsy in JS) log at
error severity and throw the 500 configuration error, otherwise sign. Returns
the result together with the emitted log lines. -/
def generateToken (jwtSecret : Option String) (userId : String) :
    Except AppError String × List LogEntry :=
  match jwtSecret with
  | none => (.error serverConfigError, [⟨.error, "JWT_SECRET not defined"⟩])
  | some s =>
      if s.isEmpty then (.error serverConfigError, [⟨.error, "JWT_SECRET not defined"⟩])
      else (.ok (jwtSign userId s), [])

/-- Outcome of one `loginUser` call: the returned value or thrown error, the
store after the call, and whether the `bcrypt.compare` capability was invoked
during the call. -/
structure LoginResult where
  result : Except AppError AuthResponse
  db : Db
  bcryptCompareInvoked : Bool

/-- `AuthService.loginUser` (auth.service.ts:150-201). Every error thrown in
the body carries a `statusCode`, so the outer catch rethrows it unchanged.
`checkLoginAttempts` never propagates an error (its catch swallows even its
own 429), so control always reaches the user lookup. -/
def loginUser (jwtSecret : Option String) (db : Db) (login : LoginData)
    (ipAddress : Option String) (now : Nat) : LoginResult :=
  let _throttleLogs := checkLoginAttempts db login.email ipAddress now
  match db.users.find? (fun u => u.email == login.email) with
  | none =>
      let db1 := (recordLoginAttempt db login.email false ipAddress now).fst
      ⟨.error invalidCredentialsError, db1, false⟩
  | some user =>
      let validPassword := bcryptCompare login.password user.passwordHash
      if validPassword then
        let db1 := (recordLoginAttempt db login.email true ipAddress now).fst
        match (generateToken jwtSecret user.id).fst with
        | .error e => ⟨.error e, db1, true⟩
        | .ok token => ⟨.ok ⟨⟨user.id, user.email, user.name⟩, token⟩, db1, true⟩
      else
        let db1 := (recordLoginAttempt db login.email false ipAddress now).fst
        ⟨.error invalidCredentialsError, db1, true⟩

/-- Outcome of one `registerUser` call. -/
structure RegisterResult where
  result : Except AppError AuthResponse
  db : Db

/-- `AuthService.registerUser` (auth.service.ts:99-147). `newId` stands for
the id the store generates for the inserted row and `now` for its creation
time. The unused `ipAddress` parameter mirrors the source signature. Every
error thrown in the body carries a `statusCode`, so the outer catch rethrows
it unchanged. -/
def registerUser (jwtSecret : Option String) (db : Db) (userData : UserData)
    (_ipAddress : Option String) (now : Nat) (newId : String) : RegisterResult :=
  match db.users.find? (fun u => u.email == userData.email) with
  | some _ => ⟨.error userExistsError, db⟩
  | none =>
      let passwordHash := bcryptHash userData.password
      let newUser : User := ⟨newId, userData.email, userData.name, passwordHash, now⟩
      let db1 := { db with users := db.users ++ [newUser] }
      match (generateToken jwtSecret newId).fst with
      | .error e => ⟨.error e, db1⟩
      | .ok token => ⟨.ok ⟨⟨newId, userData.email, userData.name⟩, token⟩, db1⟩

/-- The projection `select: { id, email, name, createdAt }` used by
`getUserProfile`: the password hash is not part of the shape. -/
structure UserProfile where
  id : String
  email : String
  name : Option String
  createdAt : Nat
deriving DecidableEq

/-- `AuthService.getUserProfile` (auth.service.ts:204-232): fetch by id with
the public-field projection; throw 404 when the id does not resolve. -/
def getUserProfile (db : Db) (userId : String) : Except AppError UserProfile :=
  match db.users.find? (fun u => u.id == userId) with
  | none => .error userNotFoundError
  | some u => .ok ⟨u.id, u.email, u.name, u.createdAt⟩

/-- Whether the supplied login credentials match a stored user, read off the
same lookup and comparison `loginUser` performs. -/
def credentialsMatch (db : Db) (login : LoginData) : Bool :=
  match db.users.find? (fun u => u.email == login.email) with
  | none => false
  | some u => bcryptCompare login.password u.passwordHash

/-- The throttle count as the spec narrative states it (§4.2): rows for the
given email with `success = false` and timestamp within the last 15 minutes,
with no condition on the stored IP. Written from the words of the spec, to be
compared with `attemptCountQuery` from the source. -/
def specAttemptCount (db : Db) (email : String) (now : Nat) : Nat :=
  (db.loginAttempts.filter (fun a =>
      a.email == email &&
      decide (now - throttleWindowMs ≤ a.createdAt) &&
      a.success == false)).length

deriving instance DecidableEq for Except

/-! ### Helper lemmas -/

/-- `generateToken` either fails with the configuration error or signs. -/
theorem generateToken_shape (jwtSecret : Option String) (userId : String) :
    (generateToken jwtSecret userId).fst = .error serverConfigError ∨
    ∃ t, (generateToken jwtSecret userId).fst = .ok t := by
  cases jwtSecret with
  | none => exact Or.inl rfl
  | some s =>
      by_cases hs : s.isEmpty
      · exact Or.inl (by simp [generateToken, hs])
      · exact Or.inr ⟨jwtSign userId s, by simp [generateToken, hs]⟩

/-- The result of `loginUser` is the 401, the 500 configuration error, or a
success value: in particular it is never the 429. -/
theorem loginUser_result_shape (jwtSecret : Option String) (db : Db)
    (login : LoginData) (ipAddress : Option String) (now : Nat) :
    (loginUser jwtSecret db login ipAddress now).result = .error invalidCredentialsError ∨
    (loginUser jwtSecret db login ipAddress now).result = .error serverConfigError ∨
    ∃ r, (loginUser jwtSecret db login ipAddress now).result = .ok r := by
  cases hf : db.users.find? (fun u => u.email == login.email) with
  | none => exact Or.inl (by simp [loginUser, hf])
  | some u =>
      by_cases hc : bcryptCompare login.password u.passwordHash
      · rcases generateToken_shape jwtSecret u.id with hg | ⟨t, hg⟩
        · exact Or.inr (Or.inl (by simp [loginUser, hf, hc, hg]))
        · exact Or.inr (Or.inr ⟨⟨⟨u.id, u.email, u.name⟩, t⟩, by simp [loginUser, hf, hc, hg]⟩)
      · exact Or.inl (by simp [loginUser, hf, hc])

/-- The caller-visible outcome of `loginUser` does not depend on the
`countFault` flag of the store. -/
theorem loginUser_result_ignores_countFault (jwtSecret : Option String) (db : Db)
    (login : LoginData) (ipAddress : Option String) (now : Nat) (b : Bool) :
    (loginUser jwtSecret { db with countFault := b } login ipAddress now).result =
      (loginUser jwtSecret db login ipAddress now).result := by
  cases hf : db.users.find? (fun u => u.email == login.email) with
  | none => simp [loginUser, hf]
  | some u =>
      by_cases hc : bcryptCompare login.password u.passwordHash
      · cases hg : (generateToken jwtSecret u.id).fst with
        | error e => simp [loginUser, hf, hc, hg]
        | ok t => simp [loginUser, hf, hc, hg]
      · simp [loginUser, hf, hc]

/-- The caller-visible outcome of `loginUser` does not depend on the
`insertAttemptFault` flag of the store. -/
theorem loginUser_result_ignores_insertFault (jwtSecret : Option String) (db : Db)
    (login : LoginData) (ipAddress : Option String) (now : Nat) (b : Bool) :
    (loginUser jwtSecret { db with insertAttemptFault := b } login ipAddress now).result =
      (loginUser jwtSecret db login ipAddress now).result ∧
    (loginUser jwtSecret { db with insertAttemptFault := b } login ipAddress now).bcryptCompareInvoked =
      (loginUser jwtSecret db login ipAddress now).bcryptCompareInvoked := by
  cases hf : db.users.find? (fun u => u.email == login.email) with
  | none => constructor <;> simp [loginUser, hf]
  | some u =>
      by_cases hc : bcryptCompare login.password u.passwordHash
      · cases hg : (generateToken jwtSecret u.id).fst with
        | error e => constructor <;> simp [loginUser, hf, hc, hg]
        | ok t => constructor <;> simp [loginUser, hf, hc, hg]
      · constructor <;> simp [loginUser, hf, hc]

/-! ### Concrete inputs used by the closed theorems -/

/-- A stored user for the throttle scenario. -/
def c1User : User := ⟨"id1", "u@x", some "N", bcryptHash "pw", 0⟩

/-- A failed attempt for the throttle scenario, at time `i`. -/
def c1Attempt (i : Nat) : LoginAttempt := ⟨"u@x", some "9.9", false, i⟩

/-- A store holding five recent failed attempts for `u@x` and the user. -/
def c1Db : Db :=
  ⟨[c1User], [c1Attempt 1, c1Attempt 2, c1Attempt 3, c1Attempt 4, c1Attempt 5],
   false, false⟩

/-- Five recent failed attempts for `u3@x`, all recorded from IP `2.2`. -/
def c3Attempt (i : Nat) : LoginAttempt := ⟨"u3@x", some "2.2", false, i⟩

/-- Store for the IP-scoping counterexample. -/
def c3Db : Db :=
  ⟨[], [c3Attempt 1, c3Attempt 2, c3Attempt 3, c3Attempt 4, c3Attempt 5], false, false⟩

/-! ### Claims -/

/-- C1: the claim says that with at least 5 recent failed attempts for the
email, `loginUser` fails with the 429 rate-limit error and `bcrypt.compare`
is never invoked. On the code this fails: the catch block of
`checkLoginAttempts` swallows the 429 its own try block threw, so at the
failing input (five recent failed attempts for `u@x`, correct password) the
throttle fires inside the try block, yet the login proceeds, invokes
`bcrypt.compare`, and succeeds. -/
theorem loginUser_ignores_throttle_at_threshold :
    attemptCountQuery c1Db "u@x" none 100 = 5 ∧
    checkLoginAttemptsTry c1Db "u@x" none 100 = .rateLimited ∧
    (loginUser (some "s") c1Db ⟨"u@x", "pw"⟩ none 100).result ≠ .error rateLimitError ∧
    (loginUser (some "s") c1Db ⟨"u@x", "pw"⟩ none 100).result =
      .ok ⟨⟨"id1", "u@x", some "N"⟩, jwtSign "id1" "s"⟩ ∧
    (loginUser (some "s") c1Db ⟨"u@x", "pw"⟩ none 100).bcryptCompareInvoked = true := by
  exact ⟨rfl, rfl, by decide, rfl, rfl⟩

/-- C2: a login with a wrong password for an existing user and a login
against a nonexistent email fail with the identical error: statusCode 401,
message `Invalid credentials`. -/
theorem loginUser_unauthorized_indistinguishable
    (jwtSecret : Option String) (db : Db) (login : LoginData)
    (ipAddress : Option String) (now : Nat)
    (h : db.users.find? (fun u => u.email == login.email) = none ∨
         ∃ u, db.users.find? (fun u => u.email == login.email) = some u ∧
              bcryptCompare login.password u.passwordHash = false) :
    (loginUser jwtSecret db login ipAddress now).result =
      .error invalidCredentialsError ∧
    invalidCredentialsError = ⟨401, "Invalid credentials"⟩ := by
  refine ⟨?_, rfl⟩
  rcases h with h | ⟨u, h, hc⟩
  · simp [loginUser, h]
  · simp [loginUser, h, hc]

/-- Stored user for the C2 witness. -/
def c2Db : Db := ⟨[⟨"id2", "b@x", none, bcryptHash "right", 0⟩], [], false, false⟩

/-- C2 witness: the wrong-password case and the unknown-email case, at
concrete inputs, both produce the 401 `Invalid credentials` error. -/
theorem loginUser_unauthorized_indistinguishable_witness :
    (loginUser (some "s") c2Db ⟨"b@x", "wrong"⟩ none 0).result =
      .error invalidCredentialsError ∧
    (loginUser (some "s") c2Db ⟨"zz@x", "wrong"⟩ none 0).result =
      .error invalidCredentialsError :=
  ⟨(loginUser_unauthorized_indistinguishable (some "s") c2Db ⟨"b@x", "wrong"⟩ none 0
      (Or.inr ⟨⟨"id2", "b@x", none, bcryptHash "right", 0⟩, by decide, by decide⟩)).1,
   (loginUser_unauthorized_indistinguishable (some "s") c2Db ⟨"zz@x", "wrong"⟩ none 0
      (Or.inl (by decide))).1⟩

/-- C3 counterexample: the claim says the throttle count ignores the stored
IP. At a concrete store with five recent failed attempts for `u3@x`, all from
IP `2.2`, the count query issued with IP `1.1` returns 0 while the
IP-independent count the claim describes is 5. -/
theorem attemptCount_depends_on_ip :
    specAttemptCount c3Db "u3@x" 100 = 5 ∧
    attemptCountQuery c3Db "u3@x" (some "1.1") 100 = 0 ∧
    attemptCountQuery c3Db "u3@x" (some "1.1") 100 ≠ specAttemptCount c3Db "u3@x" 100 :=
  ⟨rfl, rfl, by decide⟩

/-- C3 amended: when no IP is passed the count depends only on email, success
flag and timestamp (it equals the count the spec narrative describes); when an
IP is passed, the query additionally requires the stored IP of each counted
row to equal it. -/
theorem attemptCount_ip_scoped (db : Db) (email : String) (now : Nat) (ip : String) :
    attemptCountQuery db email none now = specAttemptCount db email now ∧
    attemptCountQuery db email (some ip) now =
      (db.loginAttempts.filter (fun a =>
          a.email == email &&
          a.ipAddress == some ip &&
          decide (now - throttleWindowMs ≤ a.createdAt) &&
          a.success == false)).length := by
  constructor
  · simp [attemptCountQuery, specAttemptCount, matchesOptIp]
  · rfl

/-- C4: when the count query of the throttle check fails, `checkLoginAttempts`
logs the error and returns normally, so `loginUser` does not fail with the
rate-limit error: its caller-visible result is the one of the run with the
fault cleared — the login proceeds to the user lookup and credential check. -/
theorem throttle_read_failure_fails_open
    (jwtSecret : Option String) (db : Db) (login : LoginData)
    (ipAddress : Option String) (now : Nat)
    (h : db.countFault = true) :
    checkLoginAttemptsTry db login.email ipAddress now = .readFault ∧
    checkLoginAttempts db login.email ipAddress now =
      [⟨.error, "Error checking login attempts"⟩] ∧
    (loginUser jwtSecret db login ipAddress now).result ≠ .error rateLimitError ∧
    (loginUser jwtSecret db login ipAddress now).result =
      (loginUser jwtSecret { db with countFault := false } login ipAddress now).result := by
  refine ⟨by simp [checkLoginAttemptsTry, h],
          by simp [checkLoginAttempts, checkLoginAttemptsTry, h], ?_, ?_⟩
  · rcases loginUser_result_shape jwtSecret db login ipAddress now with hr | hr | ⟨r, hr⟩ <;>
      rw [hr]
    · decide
    · decide
    · simp
  · exact (loginUser_result_ignores_countFault jwtSecret db login ipAddress now false).symm

/-- Store for the C4 witness: the count query faults. -/
def c4Db : Db := ⟨[], [], true, false⟩

/-- C4 witness: at a concrete store whose count query faults, the error is
logged and the result equals the result of the fault-free run. -/
theorem throttle_read_failure_fails_open_witness :
    checkLoginAttempts c4Db "w@x" none 5 = [⟨.error, "Error checking login attempts"⟩] ∧
    (loginUser none c4Db ⟨"w@x", "p"⟩ none 5).result =
      (loginUser none { c4Db with countFault := false } ⟨"w@x", "p"⟩ none 5).result :=
  ⟨(throttle_read_failure_fails_open none c4Db ⟨"w@x", "p"⟩ none 5 rfl).2.1,
   (throttle_read_failure_fails_open none c4Db ⟨"w@x", "p"⟩ none 5 rfl).2.2.2⟩

/-- C5: when the attempt insert does not fault, every `loginUser` invocation
appends exactly one `LoginAttempt` row for the attempted email, whose success
flag is true exactly when the credentials match (user found and password
comparison succeeds), false when the user is absent or the password
mismatches. -/
theorem loginUser_records_one_attempt
    (jwtSecret : Option String) (db : Db) (login : LoginData)
    (ipAddress : Option String) (now : Nat)
    (h : db.insertAttemptFault = false) :
    (loginUser jwtSecret db login ipAddress now).db.loginAttempts =
      db.loginAttempts ++ [⟨login.email, ipAddress, credentialsMatch db login, now⟩] := by
  cases hf : db.users.find? (fun u => u.email == login.email) with
  | none => simp [loginUser, hf, recordLoginAttempt, h, credentialsMatch]
  | some u =>
      by_cases hc : bcryptCompare login.password u.passwordHash
      · cases hg : (generateToken jwtSecret u.id).fst with
        | error e => simp [loginUser, hf, hc, hg, recordLoginAttempt, h, credentialsMatch]
        | ok t => simp [loginUser, hf, hc, hg, recordLoginAttempt, h, credentialsMatch]
      · simp [loginUser, hf, hc, recordLoginAttempt, h, credentialsMatch]

/-- Store for the C5 witness. -/
def c5Db : Db := ⟨[⟨"id5", "c@x", none, bcryptHash "pw5", 0⟩], [], false, false⟩

/-- C5 witness: a concrete login (wrong password) appends exactly one failed
attempt row. -/
theorem loginUser_records_one_attempt_witness :
    (loginUser (some "s") c5Db ⟨"c@x", "nope"⟩ (some "7.7") 9).db.loginAttempts =
      c5Db.loginAttempts ++
        [⟨"c@x", some "7.7", credentialsMatch c5Db ⟨"c@x", "nope"⟩, 9⟩] :=
  loginUser_records_one_attempt (some "s") c5Db ⟨"c@x", "nope"⟩ (some "7.7") 9 rfl

/-- C6: when a user with the given email already exists, `registerUser` fails
with the 4xx `User already exists` error and leaves the store unchanged; with
a fresh email (and a usable signing secret) the registration succeeds. -/
theorem registerUser_conflict_or_success
    (s : String) (db : Db) (userData : UserData) (ipAddress : Option String)
    (now : Nat) (newId : String) (hs : s.isEmpty = false) :
    (∀ u, db.users.find? (fun v => v.email == userData.email) = some u →
       (registerUser (some s) db userData ipAddress now newId).result =
         .error userExistsError ∧
       (registerUser (some s) db userData ipAddress now newId).db = db) ∧
    (db.users.find? (fun v => v.email == userData.email) = none →
       (registerUser (some s) db userData ipAddress now newId).result =
         .ok ⟨⟨newId, userData.email, userData.name⟩, jwtSign newId s⟩) ∧
    userExistsError = ⟨400, "User already exists"⟩ := by
  refine ⟨fun u hu => ?_, fun hn => ?_, rfl⟩
  · constructor <;> simp [registerUser, hu]
  · simp [registerUser, hn, generateToken, hs]

/-- Stored user for the C6 witness. -/
def c6User : User := ⟨"id6", "d@x", none, bcryptHash "p6", 0⟩

/-- Store for the C6 witness. -/
def c6Db : Db := ⟨[c6User], [], false, false⟩

/-- C6 witness: at concrete inputs a duplicate registration yields the
conflict error and a fresh one succeeds. -/
theorem registerUser_conflict_or_success_witness :
    (registerUser (some "s") c6Db ⟨"d@x", none, "q"⟩ none 1 "n1").result =
      .error userExistsError ∧
    (registerUser (some "s") c6Db ⟨"e@x", none, "q"⟩ none 1 "n1").result =
      .ok ⟨⟨"n1", "e@x", none⟩, jwtSign "n1" "s"⟩ :=
  ⟨((registerUser_conflict_or_success "s" c6Db ⟨"d@x", none, "q"⟩ none 1 "n1"
      (by decide)).1 c6User (by decide)).1,
   (registerUser_conflict_or_success "s" c6Db ⟨"e@x", none, "q"⟩ none 1 "n1"
      (by decide)).2.1 (by decide)⟩

/-- C7: for an id that resolves, `getUserProfile` returns exactly the public
fields id, email, name, createdAt; changing the stored password hashes in any
way leaves every profile result unchanged (the hash is never part of the
result); for an id that does not resolve it fails with the 404 error. -/
theorem getUserProfile_public_fields (db : Db) (userId : String) :
    (∀ u, db.users.find? (fun v => v.id == userId) = some u →
       getUserProfile db userId = .ok ⟨u.id, u.email, u.name, u.createdAt⟩) ∧
    (db.users.find? (fun v => v.id == userId) = none →
       getUserProfile db userId = .error userNotFoundError) ∧
    (∀ f : User → String,
       getUserProfile
         { db with users := db.users.map (fun u => { u with passwordHash := f u }) }
         userId = getUserProfile db userId) ∧
    userNotFoundError = ⟨404, "User not found"⟩ := by
  refine ⟨fun u hu => by simp [getUserProfile, hu],
          fun hn => by simp [getUserProfile, hn], fun f => ?_, rfl⟩
  unfold getUserProfile
  dsimp only
  rw [List.find?_map]
  have hp : ((fun u : User => u.id == userId) ∘ fun u : User =>
      { u with passwordHash := f u }) = fun u : User => u.id == userId := rfl
  rw [hp]
  cases db.users.find? (fun u : User => u.id == userId) <;> rfl

/-- Stored user for the C7 witness. -/
def c7User : User := ⟨"id7", "g@x", some "G", bcryptHash "p7", 3⟩

/-- Store for the C7 witness. -/
def c7Db : Db := ⟨[c7User], [], false, false⟩

/-- C7 witness: at concrete inputs the profile is exactly the four public
fields, and an unknown id yields the 404 error. -/
theorem getUserProfile_public_fields_witness :
    getUserProfile c7Db "id7" = .ok ⟨"id7", "g@x", some "G", 3⟩ ∧
    getUserProfile c7Db "nope" = .error userNotFoundError :=
  ⟨(getUserProfile_public_fields c7Db "id7").1 c7User (by decide),
   (getUserProfile_public_fields c7Db "nope").2.1 (by decide)⟩

/-- C8: with `JWT_SECRET` absent, `generateToken` fails with the 500
`Server configuration error` and logs `JWT_SECRET not defined` at error
severity; consequently `registerUser` on a fresh email and `loginUser` with
matching credentials both fail with that same 5xx error instead of returning
a token. -/
theorem missing_secret_server_error
    (db : Db) (login : LoginData) (userData : UserData) (ipAddress : Option String)
    (now : Nat) (newId uid : String)
    (hreg : db.users.find? (fun v => v.email == userData.email) = none) :
    (generateToken none uid).fst = .error serverConfigError ∧
    (⟨.error, "JWT_SECRET not defined"⟩ : LogEntry) ∈ (generateToken none uid).snd ∧
    serverConfigError = ⟨500, "Server configuration error"⟩ ∧
    (registerUser none db userData ipAddress now newId).result =
      .error serverConfigError ∧
    ((∃ u, db.users.find? (fun u => u.email == login.email) = some u ∧
          bcryptCompare login.password u.passwordHash = true) →
      (loginUser none db login ipAddress now).result = .error serverConfigError) := by
  refine ⟨rfl, by simp [generateToken], rfl, ?_, ?_⟩
  · simp [registerUser, hreg, generateToken]
  · rintro ⟨u, hu, hc⟩
    simp [loginUser, hu, hc, generateToken]

/-- Stored user for the C8 witness. -/
def c8User : User := ⟨"id8", "h@x", none, bcryptHash "p8", 0⟩

/-- Store for the C8 witness. -/
def c8Db : Db := ⟨[c8User], [], false, false⟩

/-- C8 witness: at concrete inputs with the secret absent, both registration
and a correct-password login fail with the 500 configuration error. -/
theorem missing_secret_server_error_witness :
    (registerUser none c8Db ⟨"i@x", none, "q"⟩ none 2 "n8").result =
      .error serverConfigError ∧
    (loginUser none c8Db ⟨"h@x", "p8"⟩ none 2).result = .error serverConfigError :=
  ⟨(missing_secret_server_error c8Db ⟨"h@x", "p8"⟩ ⟨"i@x", none, "q"⟩ none 2 "n8" "u0"
      (by decide)).2.2.2.1,
   (missing_secret_server_error c8Db ⟨"h@x", "p8"⟩ ⟨"i@x", none, "q"⟩ none 2 "n8" "u0"
      (by decide)).2.2.2.2 ⟨c8User, by decide, by decide⟩⟩

/-- C9: `registerUser` inserts the new user row before issuing the token, so
when the secret is absent the call fails with the 500 configuration error
while the new user row remains in the store: registration is not atomic with
respect to token-issuance failure. -/
theorem registerUser_persists_before_token_failure
    (db : Db) (userData : UserData) (ipAddress : Option String) (now : Nat)
    (newId : String)
    (h : db.users.find? (fun v => v.email == userData.email) = none) :
    (registerUser none db userData ipAddress now newId).result =
      .error serverConfigError ∧
    serverConfigError.statusCode = 500 ∧
    (registerUser none db userData ipAddress now newId).db.users =
      db.users ++
        [⟨newId, userData.email, userData.name, bcryptHash userData.password, now⟩] := by
  refine ⟨?_, rfl, ?_⟩ <;> simp [registerUser, h, generateToken]

/-- Store for the C9 witness. -/
def c9Db : Db := ⟨[], [], false, false⟩

/-- C9 witness: at a concrete fresh registration with the secret absent, the
call fails with the 500 error and the user row is persisted anyway. -/
theorem registerUser_persists_before_token_failure_witness :
    (registerUser none c9Db ⟨"j@x", some "J", "p9"⟩ none 4 "n9").result =
      .error serverConfigError ∧
    (registerUser none c9Db ⟨"j@x", some "J", "p9"⟩ none 4 "n9").db.users =
      c9Db.users ++ [⟨"n9", "j@x", some "J", bcryptHash "p9", 4⟩] :=
  ⟨(registerUser_persists_before_token_failure c9Db ⟨"j@x", some "J", "p9"⟩ none 4 "n9"
      (by decide)).1,
   (registerUser_persists_before_token_failure c9Db ⟨"j@x", some "J", "p9"⟩ none 4 "n9"
      (by decide)).2.2⟩

/-- C10: when the attempt insert faults, `recordLoginAttempt` logs the error
and returns normally with the store unchanged, and the caller-visible outcome
of `loginUser` (result and whether the password was compared) is identical
whether or not the attempt row was actually persisted. -/
theorem recordAttempt_failure_invisible
    (jwtSecret : Option String) (db : Db) (login : LoginData)
    (ipAddress : Option String) (now : Nat) (success : Bool) :
    (recordLoginAttempt { db with insertAttemptFault := true } login.email success
        ipAddress now).fst = { db with insertAttemptFault := true } ∧
    (recordLoginAttempt { db with insertAttemptFault := true } login.email success
        ipAddress now).snd = [⟨.error, "Error recording login attempt"⟩] ∧
    (loginUser jwtSecret { db with insertAttemptFault := true } login ipAddress now).result =
      (loginUser jwtSecret { db with insertAttemptFault := false } login ipAddress now).result ∧
    (loginUser jwtSecret { db with insertAttemptFault := true } login ipAddress
        now).bcryptCompareInvoked =
      (loginUser jwtSecret { db with insertAttemptFault := false } login ipAddress
        now).bcryptCompareInvoked := by
  refine ⟨rfl, rfl, ?_, ?_⟩
  · exact ((loginUser_result_ignores_insertFault jwtSecret db login ipAddress now true).1).trans
      ((loginUser_result_ignores_insertFault jwtSecret db login ipAddress now false).1).symm
  · exact ((loginUser_result_ignores_insertFault jwtSecret db login ipAddress now true).2).trans
      ((loginUser_result_ignores_insertFault jwtSecret db login ipAddress now false).2).symm

end Reflecta
